import Mathlib

/-!
Shallow embedding of the card-table write-barrier subsystem of the
generational GC, from `src/hotspot/share/gc/shared/barrierSet.inline.hpp`
and `src/hotspot/share/gc/shared/cardTableModRefBS.cpp`.

Conventions of the embedding:
* Heap addresses are byte addresses modelled as `Nat`; `HeapWord`
  addresses (pointers to native words) are word indices, so the byte
  address of word index `w` is `w * HeapWordSize`.
* The card table is a total map from card index to a dirty bit.
* A fatal `assert`/`guarantee` is modelled by an `Option` result:
  `none` means the VM aborts.
* The `#if defined(COMPILER2) || INCLUDE_JVMCI` build condition is a
  boolean parameter `compiler2`, following the spec's direction that the
  conditional compilation be treated as a runtime capability flag.
-/

namespace GcShared

/-- Bytes per native heap word (`HeapWordSize` on a 64-bit VM). -/
def HeapWordSize : Nat := 8

/-- Bytes covered by one card. Modelled from the spec: a fixed
power-of-two card granularity, e.g. 512 bytes. -/
def card_size : Nat := 512

/-- Largest value of the signed `intx` type on a 64-bit VM (`max_intx`
from `globalDefinitions.hpp`, which is outside the given sources).
Modelled from the spec: the defined maximum element count that prevents
address overflow. -/
def max_intx : Nat := 2 ^ 63 - 1

/-- Modelled from the spec: `align_down(x, n)` of `utilities/align.hpp`
(not among the given sources) rounds the byte address `x` down to the
nearest multiple of `n`. -/
def align_down (x n : Nat) : Nat := x / n * n

/-- Modelled from the spec: `align_up(x, n)` of `utilities/align.hpp`
(not among the given sources) rounds the byte address `x` up to the
nearest multiple of `n`. -/
def align_up (x n : Nat) : Nat := align_down (x + (n - 1)) n

/-- Modelled from the spec: `MemRegion` (its header is not among the
given sources) is a start address plus a size; the source type stores a
`HeapWord*` start and a word count. `start` is a word index. -/
structure MemRegion where
  start : Nat
  word_size : Nat
  deriving DecidableEq, Repr

/-- `MemRegion::is_empty()`: a region is empty iff its word count is 0. -/
def MemRegion.is_empty (mr : MemRegion) : Bool := mr.word_size == 0

/-- First byte address covered by the region. -/
def MemRegion.byteStart (mr : MemRegion) : Nat := mr.start * HeapWordSize

/-- One past the last byte address covered by the region. -/
def MemRegion.byteEnd (mr : MemRegion) : Nat :=
  (mr.start + mr.word_size) * HeapWordSize

/-- The card table is a dirty bit per card index; card `i` covers byte
addresses `[i * card_size, (i+1) * card_size)`. -/
abbrev CardTable := Nat → Bool

/-- Card `i` overlaps the non-empty part of the byte interval `[a, b)`. -/
def cardOverlaps (i a b : Nat) : Bool :=
  decide (i * card_size < b) && decide (a < (i + 1) * card_size) && decide (a < b)

/-- Modelled from the spec: `CardTable::dirty_MemRegion` (the card-table
implementation is not among the given sources) marks every card
overlapping the region as dirty; it never cleans a card. -/
def CardTable.dirty_MemRegion (ct : CardTable) (mr : MemRegion) : CardTable :=
  fun i => ct i || cardOverlaps i mr.byteStart mr.byteEnd

/-- Modelled from the spec: `CardTable::invalidate` has a contract
identical to `dirty_MemRegion`, kept as a distinct entry point. -/
def CardTable.invalidate (ct : CardTable) (mr : MemRegion) : CardTable :=
  fun i => ct i || cardOverlaps i mr.byteStart mr.byteEnd

/-- The mutable state of a `CardTableModRefBS` barrier:
`_defer_initial_card_mark` and the owned card table's contents. -/
@[ext]
structure BarrierState where
  defer_initial_card_mark : Bool
  cards : CardTable

/-- `CardTableModRefBS::write_ref_array_work(MemRegion mr)`:
`_card_table->dirty_MemRegion(mr)`. -/
def write_ref_array_work (bs : BarrierState) (mr : MemRegion) : BarrierState :=
  { bs with cards := bs.cards.dirty_MemRegion mr }

/-- `CardTableModRefBS::invalidate(MemRegion mr)`:
`_card_table->invalidate(mr)`. -/
def BarrierState.invalidate (bs : BarrierState) (mr : MemRegion) : BarrierState :=
  { bs with cards := bs.cards.invalidate mr }

/-- Modelled from the spec: `ModRefBarrierSet::write_region` (not among
the given sources) performs the card mark over the region via mutation
recording, i.e. dirties every card overlapping it. -/
def BarrierState.write_region (bs : BarrierState) (mr : MemRegion) : BarrierState :=
  { bs with cards := bs.cards.dirty_MemRegion mr }

/-- `BarrierSet::write_ref_array(HeapWord* start, size_t count)` from
`barrierSet.inline.hpp`. `start` is a byte address (under compressed
oops it may be misaligned), `count` the number of array elements,
`oopSize` the global `heapOopSize` (bytes per stored reference). The
oversized-count `assert` is fatal, modelled as `none`. -/
def write_ref_array (oopSize : Nat) (bs : BarrierState) (start count : Nat) :
    Option BarrierState :=
  if count ≤ max_intx then
    let endB := start + count * oopSize
    let aligned_start := align_down start HeapWordSize
    let aligned_end := align_up endB HeapWordSize
    some (write_ref_array_work bs
      ⟨aligned_start / HeapWordSize, (aligned_end - aligned_start) / HeapWordSize⟩)
  else
    none

/-- The heap collaborators the barrier consults, treated as black boxes
per the spec: young-generation classification, oop parsability, and the
declared word size of the object at a word address. -/
structure Heap where
  is_in_young : Nat → Bool
  is_oop : Nat → Bool
  obj_size : Nat → Nat

/-- The freshly allocated object handed to the slow-path hook: its word
address, declared word size, and whether it is a primitive-element
(`typeArray`) array. -/
structure Oop where
  addr : Nat
  size : Nat
  is_typeArray : Bool
  deriving DecidableEq, Repr

/-- The per-mutator-thread barrier state: `JavaThread::_deferred_card_mark`. -/
structure ThreadState where
  deferred_card_mark : MemRegion
  deriving DecidableEq, Repr

/-- Modelled from the spec: `JavaThread::set_deferred_card_mark` (the
thread class is not among the given sources). The spec states that
re-entering Armed from Armed — storing a new non-empty region while one
is already pending, without an intervening flush — is a fatal invariant
violation rather than a silent overwrite; clearing the slot is always
allowed. -/
def ThreadState.set_deferred_card_mark (ts : ThreadState) (mr : MemRegion) :
    Option ThreadState :=
  if ts.deferred_card_mark.is_empty || mr.is_empty then
    some { ts with deferred_card_mark := mr }
  else
    none

/-- The assert block guarding a non-empty flush: `_defer_initial_card_mark`
must hold and the deferred region must hold a single non-young parsable
object (`!is_in_young`, `is_oop`) of exactly its recorded word size. -/
def flush_asserts_ok (heap : Heap) (bs : BarrierState) (deferred : MemRegion) : Bool :=
  bs.defer_initial_card_mark
    && !heap.is_in_young deferred.start
    && heap.is_oop deferred.start
    && (deferred.word_size == heap.obj_size deferred.start)

/-- `CardTableModRefBS::flush_deferred_card_mark_barrier(JavaThread*)`.
In the `COMPILER2 || JVMCI` build: if the deferred region is non-empty,
the asserts of `flush_asserts_ok` fire (fatally on violation), then the
region is card-marked via `write_region` and the slot is cleared.
Outside that build, assert the flag is false and the slot empty. -/
def flush_deferred_card_mark_barrier (compiler2 : Bool) (heap : Heap)
    (bs : BarrierState) (ts : ThreadState) : Option (BarrierState × ThreadState) :=
  if compiler2 then
    let deferred := ts.deferred_card_mark
    if !deferred.is_empty then
      if flush_asserts_ok heap bs deferred then
        (ts.set_deferred_card_mark ⟨0, 0⟩).map
          (fun ts2 => (bs.write_region deferred, ts2))
      else
        none
    else
      some (bs, ts)
  else
    if bs.defer_initial_card_mark then none
    else if !ts.deferred_card_mark.is_empty then none
    else some (bs, ts)

/-- `CardTableModRefBS::on_slowpath_allocation_exit(JavaThread*, oop)`.
`reduceInitialCardMarks` is the global `ReduceInitialCardMarks` switch.
Outside the `COMPILER2 || JVMCI` build the whole body is compiled out. -/
def on_slowpath_allocation_exit (compiler2 reduceInitialCardMarks : Bool)
    (heap : Heap) (bs : BarrierState) (ts : ThreadState) (new_obj : Oop) :
    Option (BarrierState × ThreadState) :=
  if compiler2 then
    if !reduceInitialCardMarks then
      some (bs, ts)
    else
      match flush_deferred_card_mark_barrier compiler2 heap bs ts with
      | none => none
      | some (bs1, ts1) =>
        if new_obj.is_typeArray || heap.is_in_young new_obj.addr then
          if ts1.deferred_card_mark.is_empty then some (bs1, ts1) else none
        else
          let mr : MemRegion := ⟨new_obj.addr, new_obj.size⟩
          if mr.is_empty then
            none
          else if bs1.defer_initial_card_mark then
            (ts1.set_deferred_card_mark mr).map (fun ts2 => (bs1, ts2))
          else
            some (bs1.invalidate mr, ts1)
  else
    some (bs, ts)

/-- `CardTableModRefBS::on_thread_detach(JavaThread*)`: flush the
thread's deferred card mark. -/
def on_thread_detach (compiler2 : Bool) (heap : Heap) (bs : BarrierState)
    (ts : ThreadState) : Option (BarrierState × ThreadState) :=
  flush_deferred_card_mark_barrier compiler2 heap bs ts

/-- The global policy inputs read by
`initialize_deferred_card_mark_barriers`. -/
structure Policy where
  compiler2OrJVMCI : Bool
  is_server_compilation_mode_vm : Bool
  reduceInitialCardMarks : Bool
  can_elide_tlab_store_barriers : Bool
  deferInitialCardMark : Bool
  scanned_concurrently : Bool

/-- `CardTableModRefBS::card_mark_must_follow_store()`:
`_card_table->scanned_concurrently()`. -/
def card_mark_must_follow_store (p : Policy) : Bool := p.scanned_concurrently

/-- `CardTableModRefBS::initialize_deferred_card_mark_barriers()`: the
value `_defer_initial_card_mark` receives. Outside the
`COMPILER2 || JVMCI` build it keeps its constructor value `false`. -/
def initialize_deferred_card_mark_barriers (p : Policy) : Bool :=
  if p.compiler2OrJVMCI then
    p.is_server_compilation_mode_vm && p.reduceInitialCardMarks
      && p.can_elide_tlab_store_barriers
      && (p.deferInitialCardMark || card_mark_must_follow_store p)
  else
    false

/-! ### Helper lemmas -/

/-- An empty region overlaps no card. -/
lemma cardOverlaps_of_empty {mr : MemRegion} (h : mr.is_empty = true) (i : Nat) :
    cardOverlaps i mr.byteStart mr.byteEnd = false := by
  have hw : mr.word_size = 0 := by
    simpa [MemRegion.is_empty] using h
  simp [cardOverlaps, MemRegion.byteStart, MemRegion.byteEnd, hw]

/-- Clearing the deferred slot always succeeds. -/
lemma set_deferred_card_mark_clear (ts : ThreadState) :
    ts.set_deferred_card_mark ⟨0, 0⟩ = some { ts with deferred_card_mark := ⟨0, 0⟩ } := by
  simp [ThreadState.set_deferred_card_mark, MemRegion.is_empty]

/-- A successful flush leaves the deferred slot empty. -/
lemma flush_some_empty {compiler2 : Bool} {heap : Heap} {bs bs1 : BarrierState}
    {ts ts1 : ThreadState}
    (h : flush_deferred_card_mark_barrier compiler2 heap bs ts = some (bs1, ts1)) :
    ts1.deferred_card_mark.is_empty = true := by
  unfold flush_deferred_card_mark_barrier at h
  cases compiler2 <;> simp at h
  · obtain ⟨-, hemp, -, hts⟩ := h
    rw [← hts]
    exact hemp
  · by_cases he : ts.deferred_card_mark.is_empty
    · simp [he] at h
      obtain ⟨-, h⟩ := h
      simp [← h, he]
    · simp [he, set_deferred_card_mark_clear] at h
      obtain ⟨-, -, h⟩ := h
      simp [← h, MemRegion.is_empty]

/-- A successful flush never cleans a card. -/
lemma flush_some_mono {compiler2 : Bool} {heap : Heap} {bs bs1 : BarrierState}
    {ts ts1 : ThreadState}
    (h : flush_deferred_card_mark_barrier compiler2 heap bs ts = some (bs1, ts1))
    (i : Nat) (hc : bs.cards i = true) : bs1.cards i = true := by
  unfold flush_deferred_card_mark_barrier at h
  cases compiler2 <;> simp at h
  · obtain ⟨-, -, hbs, -⟩ := h
    rw [← hbs]
    exact hc
  · by_cases he : ts.deferred_card_mark.is_empty
    · simp [he] at h
      obtain ⟨h, -⟩ := h
      simp [← h, hc]
    · simp [he, set_deferred_card_mark_clear] at h
      obtain ⟨-, h, -⟩ := h
      simp [← h, BarrierState.write_region, CardTable.dirty_MemRegion, hc]

/-- After a successful flush, every card overlapping the previously
deferred region is dirty. -/
lemma flush_some_covers {compiler2 : Bool} {heap : Heap} {bs bs1 : BarrierState}
    {ts ts1 : ThreadState}
    (h : flush_deferred_card_mark_barrier compiler2 heap bs ts = some (bs1, ts1))
    (i : Nat)
    (hov : cardOverlaps i ts.deferred_card_mark.byteStart ts.deferred_card_mark.byteEnd = true) :
    bs1.cards i = true := by
  unfold flush_deferred_card_mark_barrier at h
  cases compiler2 <;> simp at h
  · obtain ⟨-, he, -, -⟩ := h
    rw [cardOverlaps_of_empty (by simpa using he)] at hov
    exact absurd hov (by simp)
  · by_cases he : ts.deferred_card_mark.is_empty
    · rw [cardOverlaps_of_empty he] at hov
      exact absurd hov (by simp)
    · simp [he, set_deferred_card_mark_clear] at h
      obtain ⟨-, h, -⟩ := h
      simp [← h, BarrierState.write_region, CardTable.dirty_MemRegion, hov]

/-- A successful flush preserves `_defer_initial_card_mark`. -/
lemma flush_some_flag {compiler2 : Bool} {heap : Heap} {bs bs1 : BarrierState}
    {ts ts1 : ThreadState}
    (h : flush_deferred_card_mark_barrier compiler2 heap bs ts = some (bs1, ts1)) :
    bs1.defer_initial_card_mark = bs.defer_initial_card_mark := by
  unfold flush_deferred_card_mark_barrier at h
  cases compiler2 <;> simp at h
  · obtain ⟨-, -, hbs, -⟩ := h
    rw [← hbs]
  · by_cases he : ts.deferred_card_mark.is_empty
    · simp [he] at h
      obtain ⟨h, -⟩ := h
      simp [← h]
    · simp [he, set_deferred_card_mark_clear] at h
      obtain ⟨-, h, -⟩ := h
      simp [← h, BarrierState.write_region]

/-- Flushing an empty slot in the `COMPILER2 || JVMCI` build is the
identity. -/
lemma flush_empty_noop {heap : Heap} {bs : BarrierState} {ts : ThreadState}
    (he : ts.deferred_card_mark.is_empty = true) :
    flush_deferred_card_mark_barrier true heap bs ts = some (bs, ts) := by
  simp [flush_deferred_card_mark_barrier, he]

/-! ### Claim theorems -/

/-- Claim C1: for every `write_ref_array(start, count)` with `count`
within the allowed maximum, the region handed to the card-dirtying
operation is `[start, start + count*oopSize)` aligned outward — start
rounded down and end rounded up to the `HeapWord` boundary, never
inward — so afterwards every card overlapping the written interval is
dirty, and the dirty set only grows (a superset of the minimally
required set). -/
theorem write_ref_array_covers (oopSize : Nat) (bs bs' : BarrierState)
    (start count i : Nat)
    (hcount : count ≤ max_intx)
    (h : write_ref_array oopSize bs start count = some bs') :
    (align_down start HeapWordSize ≤ start
      ∧ start + count * oopSize ≤ align_up (start + count * oopSize) HeapWordSize)
    ∧ (bs.cards i = true → bs'.cards i = true)
    ∧ (cardOverlaps i start (start + count * oopSize) = true → bs'.cards i = true) := by
  unfold write_ref_array at h
  rw [if_pos hcount] at h
  injection h with h
  subst h
  refine ⟨⟨?_, ?_⟩, ?_, ?_⟩
  · show start / 8 * 8 ≤ start
    omega
  · show start + count * oopSize
      ≤ (start + count * oopSize + (8 - 1)) / 8 * 8
    omega
  · intro hc
    simp [write_ref_array_work, CardTable.dirty_MemRegion, hc]
  · intro hov
    simp only [write_ref_array_work, CardTable.dirty_MemRegion, Bool.or_eq_true]
    refine Or.inr ?_
    simp only [cardOverlaps, MemRegion.byteStart, MemRegion.byteEnd, align_up,
      align_down, HeapWordSize, card_size, Bool.and_eq_true, decide_eq_true_eq] at hov ⊢
    obtain ⟨⟨h1, h2⟩, h3⟩ := hov
    omega

/-- Claim C2: `on_thread_detach` flushes the thread's deferred card
mark: whenever it returns (does not abort), the deferred slot is empty
afterwards, and every card overlapping a region armed at entry has been
marked dirty. -/
theorem on_thread_detach_flushes (compiler2 : Bool) (heap : Heap)
    (bs bs' : BarrierState) (ts ts' : ThreadState) (i : Nat)
    (h : on_thread_detach compiler2 heap bs ts = some (bs', ts')) :
    ts'.deferred_card_mark.is_empty = true
    ∧ (cardOverlaps i ts.deferred_card_mark.byteStart ts.deferred_card_mark.byteEnd = true →
        bs'.cards i = true) := by
  have hf : flush_deferred_card_mark_barrier compiler2 heap bs ts = some (bs', ts') := h
  exact ⟨flush_some_empty hf, fun hov => flush_some_covers hf i hov⟩

/-- Claim C3: with `ReduceInitialCardMarks` on, every successful run of
`on_slowpath_allocation_exit` flushes the pre-existing deferred region
before any arming decision: the flush does not abort, every card
overlapping the previously armed region is dirty in the result, and the
final slot is either empty or holds exactly the new object's region —
the old region never survives. -/
theorem on_slowpath_allocation_exit_flushes_first (heap : Heap)
    (bs bs' : BarrierState) (ts ts' : ThreadState) (new_obj : Oop) (i : Nat)
    (h : on_slowpath_allocation_exit true true heap bs ts new_obj = some (bs', ts')) :
    flush_deferred_card_mark_barrier true heap bs ts ≠ none
    ∧ (cardOverlaps i ts.deferred_card_mark.byteStart ts.deferred_card_mark.byteEnd = true →
        bs'.cards i = true)
    ∧ (ts'.deferred_card_mark.is_empty = true
        ∨ ts'.deferred_card_mark = ⟨new_obj.addr, new_obj.size⟩) := by
  unfold on_slowpath_allocation_exit at h
  cases hf : flush_deferred_card_mark_barrier true heap bs ts with
  | none => rw [hf] at h; simp at h
  | some p =>
    obtain ⟨bs1, ts1⟩ := p
    rw [hf] at h
    have hts1 : ts1.deferred_card_mark.is_empty = true := flush_some_empty hf
    simp only [if_true, Bool.not_true, Bool.false_eq_true, if_false] at h
    have key : (bs' = bs1 ∧ ts' = ts1)
        ∨ (bs' = bs1 ∧ ts' = ThreadState.mk ⟨new_obj.addr, new_obj.size⟩)
        ∨ (bs' = bs1.invalidate ⟨new_obj.addr, new_obj.size⟩ ∧ ts' = ts1) := by
      cases hty : (new_obj.is_typeArray || heap.is_in_young new_obj.addr) with
      | true =>
        rw [hty] at h
        simp [hts1] at h
        exact Or.inl ⟨h.1.symm, h.2.symm⟩
      | false =>
        rw [hty] at h
        simp only [Bool.false_eq_true, if_false] at h
        by_cases hmr : (MemRegion.mk new_obj.addr new_obj.size).is_empty
        · simp [hmr] at h
        · simp only [hmr, Bool.false_eq_true, if_false] at h
          by_cases hfl : bs1.defer_initial_card_mark
          · simp [hfl, ThreadState.set_deferred_card_mark, hts1] at h
            exact Or.inr (Or.inl ⟨h.1.symm, h.2.symm⟩)
          · simp [hfl] at h
            exact Or.inr (Or.inr ⟨h.1.symm, h.2.symm⟩)
    refine ⟨by simp [hf], ?_, ?_⟩
    · intro hov
      have hb1 : bs1.cards i = true := flush_some_covers hf i hov
      rcases key with ⟨hb, -⟩ | ⟨hb, -⟩ | ⟨hb, -⟩ <;> subst hb
      · exact hb1
      · exact hb1
      · simp [BarrierState.invalidate, CardTable.invalidate, hb1]
    · rcases key with ⟨-, ht⟩ | ⟨-, ht⟩ | ⟨-, ht⟩ <;> subst ht
      · exact Or.inl hts1
      · exact Or.inr rfl
      · exact Or.inl hts1

/-- Claim C4: after the initial flush in `on_slowpath_allocation_exit`
(with `ReduceInitialCardMarks` on): a primitive-element array or a
young-generation object leaves the deferred slot empty and marks no card
through this path (the result is exactly the flushed state); otherwise
the region `⟨addr, size⟩` of the object is stored in the slot when
`_defer_initial_card_mark` holds (Armed), or immediately marked via
`invalidate` with the slot left empty when it does not. -/
theorem on_slowpath_allocation_exit_decision (heap : Heap)
    (bs bsf : BarrierState) (ts tsf : ThreadState) (new_obj : Oop)
    (hf : flush_deferred_card_mark_barrier true heap bs ts = some (bsf, tsf)) :
    ((new_obj.is_typeArray || heap.is_in_young new_obj.addr) = true →
      on_slowpath_allocation_exit true true heap bs ts new_obj = some (bsf, tsf)
      ∧ tsf.deferred_card_mark.is_empty = true)
    ∧ ((new_obj.is_typeArray || heap.is_in_young new_obj.addr) = false → 0 < new_obj.size →
      (bsf.defer_initial_card_mark = true →
        on_slowpath_allocation_exit true true heap bs ts new_obj
          = some (bsf, ThreadState.mk ⟨new_obj.addr, new_obj.size⟩))
      ∧ (bsf.defer_initial_card_mark = false →
        on_slowpath_allocation_exit true true heap bs ts new_obj
          = some (bsf.invalidate ⟨new_obj.addr, new_obj.size⟩, tsf)
        ∧ tsf.deferred_card_mark.is_empty = true)) := by
  have htsf : tsf.deferred_card_mark.is_empty = true := flush_some_empty hf
  have hmr : (MemRegion.mk new_obj.addr new_obj.size).is_empty = (new_obj.size == 0) := rfl
  constructor
  · intro hty
    refine ⟨?_, htsf⟩
    unfold on_slowpath_allocation_exit
    rw [hf, hty]
    simp [htsf]
  · intro hty hsz
    have hne : (MemRegion.mk new_obj.addr new_obj.size).is_empty = false := by
      rw [hmr]
      simpa using Nat.pos_iff_ne_zero.mp hsz
    constructor
    · intro hfl
      unfold on_slowpath_allocation_exit
      rw [hf, hty]
      simp [hne, hfl, ThreadState.set_deferred_card_mark, htsf]
    · intro hfl
      refine ⟨?_, htsf⟩
      unfold on_slowpath_allocation_exit
      rw [hf, hty]
      simp [hne, hfl]

/-- Claim C5: `flush_deferred_card_mark_barrier` on an empty deferred
slot is a no-op leaving barrier and thread state unchanged; on a
non-empty slot it aborts fatally unless the consistency asserts hold
(flag set, single non-young object of exactly the recorded size), in
which case it marks every card of the region via `write_region` and
clears the slot — so every successful run ends with an empty slot. The
hypothesis `hwf` records that `_defer_initial_card_mark` can only have
been set in a `COMPILER2 || JVMCI` build. -/
theorem flush_deferred_card_mark_barrier_spec (compiler2 : Bool) (heap : Heap)
    (bs : BarrierState) (ts : ThreadState)
    (hwf : bs.defer_initial_card_mark = true → compiler2 = true) :
    (ts.deferred_card_mark.is_empty = true →
      flush_deferred_card_mark_barrier compiler2 heap bs ts = some (bs, ts))
    ∧ (ts.deferred_card_mark.is_empty = false →
        flush_asserts_ok heap bs ts.deferred_card_mark = true →
        flush_deferred_card_mark_barrier compiler2 heap bs ts
          = some (bs.write_region ts.deferred_card_mark, ThreadState.mk ⟨0, 0⟩))
    ∧ (ts.deferred_card_mark.is_empty = false →
        flush_asserts_ok heap bs ts.deferred_card_mark = false →
        flush_deferred_card_mark_barrier compiler2 heap bs ts = none) := by
  refine ⟨?_, ?_, ?_⟩
  · intro he
    cases compiler2 with
    | true => exact flush_empty_noop he
    | false =>
      have hfl : bs.defer_initial_card_mark = false := by
        by_contra hc
        exact absurd (hwf (by simpa using hc)) (by simp)
      simp [flush_deferred_card_mark_barrier, hfl, he]
  · intro he hok
    have hfl : bs.defer_initial_card_mark = true := by
      have := hok
      simp [flush_asserts_ok] at this
      exact this.1.1.1
    rw [hwf hfl]
    simp [flush_deferred_card_mark_barrier, he, hok,
      ThreadState.set_deferred_card_mark, MemRegion.is_empty]
    intro h0
    simp [MemRegion.is_empty] at he
    exact absurd h0 he
  · intro he hok
    cases compiler2 with
    | true => simp [flush_deferred_card_mark_barrier, he, hok]
    | false =>
      have hfl : bs.defer_initial_card_mark = false := by
        by_contra hc
        exact absurd (hwf (by simpa using hc)) (by simp)
      simp [flush_deferred_card_mark_barrier, hfl, he]

/-- Claim C6: arming the per-thread deferred state while it is already
armed — storing a new non-empty region without an intervening flush —
raises the fatal invariant-violation condition (modelled as `none`)
rather than silently overwriting the slot. -/
theorem set_deferred_card_mark_double_arm (ts : ThreadState) (mr : MemRegion)
    (h1 : ts.deferred_card_mark.is_empty = false) (h2 : mr.is_empty = false) :
    ts.set_deferred_card_mark mr = none := by
  simp [ThreadState.set_deferred_card_mark, h1, h2]

/-- Claim C7: when `_defer_initial_card_mark` is false, no barrier
operation ever makes a thread's deferred slot non-empty: starting from
an empty slot, every successful `on_slowpath_allocation_exit`, flush,
and `on_thread_detach` leaves the slot empty. -/
theorem defer_flag_guards_arming (compiler2 reduce : Bool) (heap : Heap)
    (bs bs' : BarrierState) (ts ts' : ThreadState) (new_obj : Oop)
    (hflag : bs.defer_initial_card_mark = false)
    (hempty : ts.deferred_card_mark.is_empty = true) :
    (on_slowpath_allocation_exit compiler2 reduce heap bs ts new_obj = some (bs', ts') →
      ts'.deferred_card_mark.is_empty = true)
    ∧ (flush_deferred_card_mark_barrier compiler2 heap bs ts = some (bs', ts') →
      ts'.deferred_card_mark.is_empty = true)
    ∧ (on_thread_detach compiler2 heap bs ts = some (bs', ts') →
      ts'.deferred_card_mark.is_empty = true) := by
  refine ⟨?_, fun h => flush_some_empty h, fun h => flush_some_empty h⟩
  intro h
  unfold on_slowpath_allocation_exit at h
  cases compiler2 with
  | false =>
    simp at h
    rw [← h.2]
    exact hempty
  | true =>
    cases reduce with
    | false =>
      simp at h
      rw [← h.2]
      exact hempty
    | true =>
      cases hf : flush_deferred_card_mark_barrier true heap bs ts with
      | none => rw [hf] at h; simp at h
      | some p =>
        obtain ⟨bs1, ts1⟩ := p
        rw [hf] at h
        have hts1 : ts1.deferred_card_mark.is_empty = true := flush_some_empty hf
        have hfl1 : bs1.defer_initial_card_mark = false := by
          rw [flush_some_flag hf]
          exact hflag
        simp only [if_true, Bool.not_true, Bool.false_eq_true, if_false] at h
        cases hty : (new_obj.is_typeArray || heap.is_in_young new_obj.addr) with
        | true =>
          rw [hty] at h
          simp [hts1] at h
          rw [← h.2]
          exact hts1
        | false =>
          rw [hty] at h
          simp only [Bool.false_eq_true, if_false] at h
          by_cases hmr : (MemRegion.mk new_obj.addr new_obj.size).is_empty
          · simp [hmr] at h
          · simp only [hmr, Bool.false_eq_true, if_false, hfl1] at h
            simp at h
            rw [← h.2]
            exact hts1

/-- Claim C8: dirtying is idempotent: applying
`write_ref_array_work` (resp. `invalidate`) to the same region twice
yields exactly the same card-table state as applying it once, and a card
that is already dirty is left exactly as it was. -/
theorem dirtying_idempotent (bs : BarrierState) (mr : MemRegion) (i : Nat)
    (hc : bs.cards i = true) :
    write_ref_array_work (write_ref_array_work bs mr) mr = write_ref_array_work bs mr
    ∧ BarrierState.invalidate (BarrierState.invalidate bs mr) mr = bs.invalidate mr
    ∧ (write_ref_array_work bs mr).cards i = bs.cards i
    ∧ (bs.invalidate mr).cards i = bs.cards i := by
  refine ⟨?_, ?_, ?_, ?_⟩
  · ext j
    · rfl
    · simp [write_ref_array_work, CardTable.dirty_MemRegion, Bool.or_assoc]
  · ext j
    · rfl
    · simp [BarrierState.invalidate, CardTable.invalidate, Bool.or_assoc]
  · simp [write_ref_array_work, CardTable.dirty_MemRegion, hc]
  · simp [BarrierState.invalidate, CardTable.invalidate, hc]

/-- Claim C9: `write_ref_array(start, count)` requires
`count ≤ max_intx`; a violating call hits the fatal assertion (`none`),
and under the precondition the assertion branch is unreachable (the call
always produces a result). -/
theorem write_ref_array_precondition (oopSize : Nat) (bs : BarrierState)
    (start count : Nat) :
    (count ≤ max_intx → (write_ref_array oopSize bs start count).isSome = true)
    ∧ (max_intx < count → write_ref_array oopSize bs start count = none) := by
  constructor
  · intro hle
    unfold write_ref_array
    rw [if_pos hle]
    rfl
  · intro hgt
    unfold write_ref_array
    rw [if_neg (by omega)]

/-- Claim C10: with `ReduceInitialCardMarks` off,
`on_slowpath_allocation_exit` returns immediately as a complete no-op:
no flush, no card marked, barrier state and the thread's deferred slot
returned unchanged, for every thread and every new object. -/
theorem on_slowpath_allocation_exit_noop_when_disabled (compiler2 : Bool)
    (heap : Heap) (bs : BarrierState) (ts : ThreadState) (new_obj : Oop) :
    on_slowpath_allocation_exit compiler2 false heap bs ts new_obj = some (bs, ts) := by
  cases compiler2 <;> simp [on_slowpath_allocation_exit]

/-! ### Witnesses

Concrete instantiations: heap with everything old-generation and
parsable, objects of size 2 or 3 words, card 0. The spec's example
scenario (card size 512, `record_array_write(address=100,
element_count=20, reference_size=4)` dirtying card 0) instantiates the
coverage theorem. -/

/-- Witness for C1, on the spec's example scenario: bytes `[100, 180)`
with compressed 4-byte oops are outward-aligned and card 0 is dirty. -/
theorem write_ref_array_covers_witness :
    (align_down 100 HeapWordSize ≤ 100
      ∧ 100 + 20 * 4 ≤ align_up (100 + 20 * 4) HeapWordSize)
    ∧ (CardTable.dirty_MemRegion (fun _ => false) ⟨12, 11⟩) 0 = true := by
  have T := write_ref_array_covers 4 (BarrierState.mk false (fun _ => false))
      (BarrierState.mk false (CardTable.dirty_MemRegion (fun _ => false) ⟨12, 11⟩))
      100 20 0 (by decide) rfl
  exact ⟨T.1, T.2.2 (by decide)⟩

/-- Witness for C2: detaching a thread with armed region `⟨1, 2⟩`
(bytes `[8, 24)`) empties the slot and dirties card 0. -/
theorem on_thread_detach_flushes_witness :
    (ThreadState.mk ⟨0, 0⟩).deferred_card_mark.is_empty = true
    ∧ (CardTable.dirty_MemRegion (fun _ => false) ⟨1, 2⟩) 0 = true := by
  have T := on_thread_detach_flushes true
      ⟨fun _ => false, fun _ => true, fun _ => 2⟩
      (BarrierState.mk true (fun _ => false))
      (BarrierState.mk true (CardTable.dirty_MemRegion (fun _ => false) ⟨1, 2⟩))
      (ThreadState.mk ⟨1, 2⟩) (ThreadState.mk ⟨0, 0⟩) 0 rfl
  exact ⟨T.1, T.2 (by decide)⟩

/-- Witness for C3: a slow-path allocation of a primitive array while
region `⟨1, 2⟩` is armed flushes it (card 0 dirty, flush defined). -/
theorem on_slowpath_allocation_exit_flushes_first_witness :
    flush_deferred_card_mark_barrier true
        ⟨fun _ => false, fun _ => true, fun _ => 2⟩
        (BarrierState.mk true (fun _ => false)) (ThreadState.mk ⟨1, 2⟩) ≠ none
    ∧ (CardTable.dirty_MemRegion (fun _ => false) ⟨1, 2⟩) 0 = true := by
  have T := on_slowpath_allocation_exit_flushes_first
      ⟨fun _ => false, fun _ => true, fun _ => 2⟩
      (BarrierState.mk true (fun _ => false))
      (BarrierState.mk true (CardTable.dirty_MemRegion (fun _ => false) ⟨1, 2⟩))
      (ThreadState.mk ⟨1, 2⟩) (ThreadState.mk ⟨0, 0⟩) (Oop.mk 5 3 true) 0 rfl
  exact ⟨T.1, T.2.1 (by decide)⟩

/-- Witness for C4: an old-generation non-array object of size 3 at
word 5 is deferred when `_defer_initial_card_mark` holds. -/
theorem on_slowpath_allocation_exit_decision_witness :
    on_slowpath_allocation_exit true true
        ⟨fun _ => false, fun _ => true, fun _ => 2⟩
        (BarrierState.mk true (fun _ => false)) (ThreadState.mk ⟨0, 0⟩)
        (Oop.mk 5 3 false)
      = some (BarrierState.mk true (fun _ => false), ThreadState.mk ⟨5, 3⟩) := by
  have T := on_slowpath_allocation_exit_decision
      ⟨fun _ => false, fun _ => true, fun _ => 2⟩
      (BarrierState.mk true (fun _ => false)) (BarrierState.mk true (fun _ => false))
      (ThreadState.mk ⟨0, 0⟩) (ThreadState.mk ⟨0, 0⟩) (Oop.mk 5 3 false) rfl
  exact (T.2 (by decide) (by decide)).1 rfl

/-- Witness for C5: flushing armed region `⟨1, 2⟩` under passing asserts
marks the region and clears the slot. -/
theorem flush_deferred_card_mark_barrier_spec_witness :
    flush_deferred_card_mark_barrier true
        ⟨fun _ => false, fun _ => true, fun _ => 2⟩
        (BarrierState.mk true (fun _ => false)) (ThreadState.mk ⟨1, 2⟩)
      = some ((BarrierState.mk true (fun _ => false)).write_region ⟨1, 2⟩,
          ThreadState.mk ⟨0, 0⟩) := by
  have T := flush_deferred_card_mark_barrier_spec true
      ⟨fun _ => false, fun _ => true, fun _ => 2⟩
      (BarrierState.mk true (fun _ => false)) (ThreadState.mk ⟨1, 2⟩)
      (fun _ => rfl)
  exact T.2.1 (by decide) (by decide)

/-- Witness for C6: arming region `⟨5, 3⟩` while `⟨1, 2⟩` is already
armed aborts. -/
theorem set_deferred_card_mark_double_arm_witness :
    (ThreadState.mk ⟨1, 2⟩).set_deferred_card_mark ⟨5, 3⟩ = none :=
  set_deferred_card_mark_double_arm (ThreadState.mk ⟨1, 2⟩) ⟨5, 3⟩
    (by decide) (by decide)

/-- Witness for C7: with the flag off, a slow-path allocation of an
old-generation object marks immediately and leaves the slot empty. -/
theorem defer_flag_guards_arming_witness :
    (ThreadState.mk ⟨0, 0⟩).deferred_card_mark.is_empty = true := by
  have T := defer_flag_guards_arming true true
      ⟨fun _ => false, fun _ => true, fun _ => 2⟩
      (BarrierState.mk false (fun _ => false))
      (BarrierState.mk false (CardTable.invalidate (fun _ => false) ⟨5, 3⟩))
      (ThreadState.mk ⟨0, 0⟩) (ThreadState.mk ⟨0, 0⟩) (Oop.mk 5 3 false)
      rfl rfl
  exact T.1 rfl

/-- Witness for C8: double-dirtying region `⟨0, 1⟩` equals dirtying it
once, and card 0, already dirty, is unchanged. -/
theorem dirtying_idempotent_witness :
    write_ref_array_work
        (write_ref_array_work (BarrierState.mk false (fun _ => true)) ⟨0, 1⟩) ⟨0, 1⟩
      = write_ref_array_work (BarrierState.mk false (fun _ => true)) ⟨0, 1⟩
    ∧ (write_ref_array_work (BarrierState.mk false (fun _ => true)) ⟨0, 1⟩).cards 0
      = (BarrierState.mk false (fun _ => true)).cards 0 := by
  have T := dirtying_idempotent (BarrierState.mk false (fun _ => true)) ⟨0, 1⟩ 0 rfl
  exact ⟨T.1, T.2.2.1⟩

/-- Witness for C9: a 3-element write is accepted; an oversized count
aborts. -/
theorem write_ref_array_precondition_witness :
    (write_ref_array 4 (BarrierState.mk false (fun _ => false)) 0 3).isSome = true
    ∧ write_ref_array 4 (BarrierState.mk false (fun _ => false)) 0 (2 ^ 63) = none := by
  have T := write_ref_array_precondition 4 (BarrierState.mk false (fun _ => false)) 0 3
  have U := write_ref_array_precondition 4 (BarrierState.mk false (fun _ => false)) 0 (2 ^ 63)
  exact ⟨T.1 (by decide), U.2 (by norm_num [max_intx])⟩

end GcShared
